import Mathlib

set_option maxHeartbeats 1000000

/-! Verification of the C FFI boundary for 2D polyline geometry operations.

The data model and every boundary entry point are translated from the Rust
source (src/lib.rs).  The underlying geometry library is an external
collaborator; where its behaviour decides a property it is modelled from the
specification, in definitions whose doc comments start with
"Modelled from the spec:".  Machine f64 parameters are embedded as ℚ,
u32 and usize values as Nat with explicit reduction modulo 2^32 where the
source casts.  Caller memory is an explicit heap state: pointers are Nat
with 0 as the null pointer, and each scalar output pointer of an entry
point is embedded as an Option-valued component of the result, none meaning
the output pointer was never written. -/

/-- A 2D vector (Vector2 of f64), coordinates embedded as ℚ. -/
structure Vec2 where
  x : ℚ
  y : ℚ
  deriving DecidableEq

/-- A polyline vertex: position plus bulge (arc curvature indicator). -/
structure PlineVertex where
  x : ℚ
  y : ℚ
  bulge : ℚ
  deriving DecidableEq

/-- A polyline: ordered vertex sequence plus the is-closed flag. -/
structure Polyline where
  vertexes : List PlineVertex
  is_closed : Bool
  deriving DecidableEq

/-- Result record of the collaborator's closest-point query. -/
structure ClosestPointResult where
  seg_start_index : Nat
  seg_point : Vec2
  distance : ℚ
  deriving DecidableEq

/-- Tri-state orientation classification of a polyline. -/
inductive PlineOrientation where
  | Open : PlineOrientation
  | Clockwise : PlineOrientation
  | CounterClockwise : PlineOrientation
  deriving DecidableEq

/-- A transversal crossing point found by the collaborator's sweep. -/
structure PlineBasicIntersect where
  start_index1 : Nat
  start_index2 : Nat
  point : Vec2
  deriving DecidableEq

/-- A maximal coincident sub-segment found by the collaborator's sweep. -/
structure PlineOverlappingIntersect where
  start_index1 : Nat
  start_index2 : Nat
  point1 : Vec2
  point2 : Vec2
  deriving DecidableEq

/-- The collection returned by the collaborator's find_intersects_opt. -/
structure IntersectCollection where
  basic_intersects : List PlineBasicIntersect
  overlapping_intersects : List PlineOverlappingIntersect
  deriving DecidableEq

/-- The boundary-owned aggregate boxed by cavc_pline_find_intersects
(struct cavc_intersects_result in the source). -/
structure cavc_intersects_result_val where
  basic : List PlineBasicIntersect
  overlapping : List PlineOverlappingIntersect
  deriving DecidableEq

/-- The fixed-layout C output record for a basic intersect
(struct cavc_basic_intersect, repr C). -/
structure cavc_basic_intersect where
  start_index1 : Nat
  start_index2 : Nat
  point_x : ℚ
  point_y : ℚ
  deriving DecidableEq

/-- The fixed-layout C output record for an overlapping intersect
(struct cavc_overlapping_intersect, repr C). -/
structure cavc_overlapping_intersect where
  start_index1 : Nat
  start_index2 : Nat
  point1_x : ℚ
  point1_y : ℚ
  point2_x : ℚ
  point2_y : ℚ
  deriving DecidableEq

/-- The u32 cast of the source (the `as u32` conversions). -/
def u32of (n : Nat) : Nat := n % 4294967296

/-- Caller-visible heap: a cavc_pline box holds exactly one polyline value,
so polyline handles map to Polyline values and intersection-result handles
map to cavc_intersects_result_val values.  Pointer 0 is null; alloc is the
next fresh address handed out by Box allocation. -/
structure State where
  plines : Nat → Option Polyline
  results : Nat → Option cavc_intersects_result_val
  alloc : Nat

/-- A well-formed heap: null maps to nothing and every address at or above
the allocation frontier is unallocated. -/
def State.WF (s : State) : Prop :=
  s.plines 0 = none ∧ s.results 0 = none ∧ 1 ≤ s.alloc ∧
    (∀ q, s.alloc ≤ q → s.plines q = none) ∧
    (∀ q, s.alloc ≤ q → s.results q = none)

/-- In-place replacement of the polyline value behind a handle
(the write through a mutable handle in cavc_pline_rotate_start). -/
def setPline (s : State) (ptr : Nat) (p : Polyline) : State :=
  ⟨fun q => if q = ptr then some p else s.plines q, s.results, s.alloc⟩

/-- Box::into_raw of a new cavc_pline: stores the value at a fresh non-null
address and returns that address. -/
def allocPline (s : State) (p : Polyline) : State × Nat :=
  (⟨fun q => if q = s.alloc then some p else s.plines q, s.results,
    s.alloc + 1⟩, s.alloc)

/-- Box::into_raw of a new cavc_intersects_result. -/
def allocResult (s : State) (r : cavc_intersects_result_val) : State × Nat :=
  (⟨s.plines, fun q => if q = s.alloc then some r else s.results q,
    s.alloc + 1⟩, s.alloc)

/-- The external geometry collaborator (the cavalier_contours polyline
methods the boundary calls).  Each call may fault, so results live in
Except Unit, with error () standing for a panic inside the call. -/
structure Collab where
  orientation : Polyline → Except Unit PlineOrientation
  closest_point : Polyline → Vec2 → ℚ → Except Unit (Option ClosestPointResult)
  find_point_at_path_length : Polyline → ℚ → Except Unit (Except Unit (Nat × ℚ × ℚ))
  arcs_to_approx_lines : Polyline → ℚ → Except Unit (Option Polyline)
  rotate_start : Polyline → Nat → Vec2 → ℚ → Except Unit (Option Polyline)
  find_intersects_opt : Polyline → Polyline → ℚ → Except Unit IntersectCollection

/-- Polyline::create_from: a value-identical copy of a polyline. -/
def Polyline.create_from (p : Polyline) : Polyline := p

/-- Modelled from the spec: the collaborator's segment count — a polyline
with fewer than two vertices has no segments, a closed polyline has one
segment per vertex, an open one has one fewer. -/
def segment_count (p : Polyline) : Nat :=
  if p.vertexes.length < 2 then 0
  else if p.is_closed then p.vertexes.length
  else p.vertexes.length - 1

/-- The ffi_catch_unwind macro: run the wrapped computation; if it faults,
substitute the reserved sentinel result (status -1, no output writes, and —
since every fault source in every body precedes every memory effect — the
heap exactly as it was at entry). -/
def ffi_catch_unwind {α : Type} (onPanic : α) (body : Except Unit α) : α :=
  match body with
  | .ok r => r
  | .error _ => onPanic

/-- The u32 value written for each orientation variant. -/
def orientCode : PlineOrientation → Nat
  | .Open => 0
  | .Clockwise => 1
  | .CounterClockwise => 2

/-- Wrapped computation of cavc_pline_orientation: null check, dereference
(a dangling dereference is undefined behaviour, modelled as a fault),
collaborator orientation call, then the single output write. -/
def cavc_pline_orientation_body (C : Collab) (s : State) (pline : Nat) :
    Except Unit (State × Int × Option Nat) :=
  if pline = 0 then .ok (s, 1, none)
  else
    match s.plines pline with
    | none => .error ()
    | some p =>
      match C.orientation p with
      | .error e => .error e
      | .ok o => .ok (s, 0, some (orientCode o))

/-- Get the orientation of a polyline (writes 0 = Open, 1 = Clockwise,
2 = CounterClockwise; error code 1 = pline is null). -/
def cavc_pline_orientation (C : Collab) (s : State) (pline : Nat) :
    State × Int × Option Nat :=
  ffi_catch_unwind (s, -1, none) (cavc_pline_orientation_body C s pline)

/-- Wrapped computation of cavc_pline_closest_point. -/
def cavc_pline_closest_point_body (C : Collab) (s : State) (pline : Nat)
    (x y pos_equal_eps : ℚ) :
    Except Unit (State × Int × Option (Nat × ℚ × ℚ × ℚ)) :=
  if pline = 0 then .ok (s, 1, none)
  else
    match s.plines pline with
    | none => .error ()
    | some p =>
      if segment_count p = 0 then .ok (s, 2, none)
      else
        match C.closest_point p ⟨x, y⟩ pos_equal_eps with
        | .error e => .error e
        | .ok none => .ok (s, 2, none)
        | .ok (some r) =>
          .ok (s, 0, some (u32of r.seg_start_index, r.seg_point.x,
            r.seg_point.y, r.distance))

/-- Find the closest point on a polyline to a given point (outputs: segment
start index, closest point coordinates, distance; error code 1 = null,
2 = polyline has no segments). -/
def cavc_pline_closest_point (C : Collab) (s : State) (pline : Nat)
    (x y pos_equal_eps : ℚ) : State × Int × Option (Nat × ℚ × ℚ × ℚ) :=
  ffi_catch_unwind (s, -1, none)
    (cavc_pline_closest_point_body C s pline x y pos_equal_eps)

/-- Wrapped computation of cavc_pline_find_point_at_path_length. -/
def cavc_pline_find_point_at_path_length_body (C : Collab) (s : State)
    (pline : Nat) (target_path_length : ℚ) :
    Except Unit (State × Int × Option (Nat × ℚ × ℚ)) :=
  if pline = 0 then .ok (s, 1, none)
  else
    match s.plines pline with
    | none => .error ()
    | some p =>
      match C.find_point_at_path_length p target_path_length with
      | .error e => .error e
      | .ok (.error _) => .ok (s, 2, none)
      | .ok (.ok (idx, px, py)) => .ok (s, 0, some (u32of idx, px, py))

/-- Find the point at a given path length along a polyline (outputs:
segment index and point coordinates; error code 1 = null, 2 = polyline
empty or target length exceeds total path length). -/
def cavc_pline_find_point_at_path_length (C : Collab) (s : State)
    (pline : Nat) (target_path_length : ℚ) :
    State × Int × Option (Nat × ℚ × ℚ) :=
  ffi_catch_unwind (s, -1, none)
    (cavc_pline_find_point_at_path_length_body C s pline target_path_length)

/-- Wrapped computation of cavc_pline_arcs_to_approx_lines: when the
collaborator reports no change needed, a value-identical copy of the input
is boxed instead. -/
def cavc_pline_arcs_to_approx_lines_body (C : Collab) (s : State)
    (pline : Nat) (error_distance : ℚ) :
    Except Unit (State × Int × Option Nat) :=
  if pline = 0 then .ok (s, 1, none)
  else
    match s.plines pline with
    | none => .error ()
    | some p =>
      match C.arcs_to_approx_lines p error_distance with
      | .error e => .error e
      | .ok r =>
        let linearized :=
          match r with
          | some pl => pl
          | none => Polyline.create_from p
        let out := allocPline s linearized
        .ok (out.1, 0, some out.2)

/-- Convert all arc segments to approximate line segments, returning a new
polyline handle through the result pointer (error code 1 = null). -/
def cavc_pline_arcs_to_approx_lines (C : Collab) (s : State) (pline : Nat)
    (error_distance : ℚ) : State × Int × Option Nat :=
  ffi_catch_unwind (s, -1, none)
    (cavc_pline_arcs_to_approx_lines_body C s pline error_distance)

/-- Wrapped computation of cavc_pline_rotate_start: on collaborator success
the rotated polyline replaces the value behind the same handle. -/
def cavc_pline_rotate_start_body (C : Collab) (s : State) (pline : Nat)
    (start_index : Nat) (point_x point_y pos_equal_eps : ℚ) :
    Except Unit (State × Int) :=
  if pline = 0 then .ok (s, 1)
  else
    match s.plines pline with
    | none => .error ()
    | some p =>
      match C.rotate_start p start_index ⟨point_x, point_y⟩ pos_equal_eps with
      | .error e => .error e
      | .ok none => .ok (s, 2)
      | .ok (some rotated) => .ok (setPline s pline rotated, 0)

/-- Rotate the start of a closed polyline to a new index and split point,
modifying in place (error code 1 = null, 2 = operation failed). -/
def cavc_pline_rotate_start (C : Collab) (s : State) (pline : Nat)
    (start_index : Nat) (point_x point_y pos_equal_eps : ℚ) : State × Int :=
  ffi_catch_unwind (s, -1)
    (cavc_pline_rotate_start_body C s pline start_index point_x point_y
      pos_equal_eps)

/-- Wrapped computation of cavc_pline_find_intersects. -/
def cavc_pline_find_intersects_body (C : Collab) (s : State)
    (pline1 pline2 : Nat) (pos_equal_eps : ℚ) :
    Except Unit (State × Int × Option Nat) :=
  if pline1 = 0 ∨ pline2 = 0 then .ok (s, 1, none)
  else
    match s.plines pline1, s.plines pline2 with
    | some p1, some p2 =>
      match C.find_intersects_opt p1 p2 pos_equal_eps with
      | .error e => .error e
      | .ok collection =>
        let out := allocResult s
          ⟨collection.basic_intersects, collection.overlapping_intersects⟩
        .ok (out.1, 0, some out.2)
    | _, _ => .error ()

/-- Find all intersections between two polylines, returning a new
intersection-result handle through the result pointer (error code 1 =
either input handle is null). -/
def cavc_pline_find_intersects (C : Collab) (s : State) (pline1 pline2 : Nat)
    (pos_equal_eps : ℚ) : State × Int × Option Nat :=
  ffi_catch_unwind (s, -1, none)
    (cavc_pline_find_intersects_body C s pline1 pline2 pos_equal_eps)

/-- Wrapped computation of cavc_intersects_result_get_basic_count. -/
def cavc_intersects_result_get_basic_count_body (s : State) (result : Nat) :
    Except Unit (State × Int × Option Nat) :=
  if result = 0 then .ok (s, 1, none)
  else
    match s.results result with
    | none => .error ()
    | some r => .ok (s, 0, some (u32of r.basic.length))

/-- Get the count of basic intersections (error code 1 = null). -/
def cavc_intersects_result_get_basic_count (s : State) (result : Nat) :
    State × Int × Option Nat :=
  ffi_catch_unwind (s, -1, none)
    (cavc_intersects_result_get_basic_count_body s result)

/-- Wrapped computation of cavc_intersects_result_get_basic. -/
def cavc_intersects_result_get_basic_body (s : State) (result : Nat)
    (index : Nat) : Except Unit (State × Int × Option cavc_basic_intersect) :=
  if result = 0 then .ok (s, 1, none)
  else
    match s.results result with
    | none => .error ()
    | some r =>
      if h : index < r.basic.length then
        let b := r.basic.get ⟨index, h⟩
        .ok (s, 0, some ⟨u32of b.start_index1, u32of b.start_index2,
          b.point.x, b.point.y⟩)
      else .ok (s, 2, none)

/-- Get a basic intersection at the given index (error code 1 = null,
2 = index out of range). -/
def cavc_intersects_result_get_basic (s : State) (result : Nat)
    (index : Nat) : State × Int × Option cavc_basic_intersect :=
  ffi_catch_unwind (s, -1, none)
    (cavc_intersects_result_get_basic_body s result index)

/-- Wrapped computation of cavc_intersects_result_get_overlapping_count. -/
def cavc_intersects_result_get_overlapping_count_body (s : State)
    (result : Nat) : Except Unit (State × Int × Option Nat) :=
  if result = 0 then .ok (s, 1, none)
  else
    match s.results result with
    | none => .error ()
    | some r => .ok (s, 0, some (u32of r.overlapping.length))

/-- Get the count of overlapping intersections (error code 1 = null). -/
def cavc_intersects_result_get_overlapping_count (s : State) (result : Nat) :
    State × Int × Option Nat :=
  ffi_catch_unwind (s, -1, none)
    (cavc_intersects_result_get_overlapping_count_body s result)

/-- Wrapped computation of cavc_intersects_result_get_overlapping. -/
def cavc_intersects_result_get_overlapping_body (s : State) (result : Nat)
    (index : Nat) :
    Except Unit (State × Int × Option cavc_overlapping_intersect) :=
  if result = 0 then .ok (s, 1, none)
  else
    match s.results result with
    | none => .error ()
    | some r =>
      if h : index < r.overlapping.length then
        let o := r.overlapping.get ⟨index, h⟩
        .ok (s, 0, some ⟨u32of o.start_index1, u32of o.start_index2,
          o.point1.x, o.point1.y, o.point2.x, o.point2.y⟩)
      else .ok (s, 2, none)

/-- Get an overlapping intersection at the given index (error code 1 =
null, 2 = index out of range). -/
def cavc_intersects_result_get_overlapping (s : State) (result : Nat)
    (index : Nat) : State × Int × Option cavc_overlapping_intersect :=
  ffi_catch_unwind (s, -1, none)
    (cavc_intersects_result_get_overlapping_body s result index)

/-- Free an intersection result: a no-op on null, otherwise the box behind
the pointer is reclaimed.  Note: in the source this entry point returns no
status and, unlike every other entry point, its body is not wrapped in
ffi_catch_unwind; its computation (a drop of plain data) has no fault
source, so it is embedded as a total function on the heap. -/
def cavc_intersects_result_f (s : State) (result : Nat) : State :=
  if result = 0 then s
  else ⟨s.plines, fun q => if q = result then none else s.results q, s.alloc⟩

/-- Largest k at most the fuel argument with k * k ≤ n. -/
def isqrtAux (n : Nat) : Nat → Nat
  | 0 => 0
  | k + 1 => if (k + 1) * (k + 1) ≤ n then k + 1 else isqrtAux n k

/-- Modelled from the spec: square root of a nonnegative rational, exact
whenever numerator and denominator are perfect squares (which covers every
geometry considered in this development). -/
def ratSqrt (q : ℚ) : ℚ :=
  (isqrtAux q.num.toNat q.num.toNat : ℚ) / (isqrtAux q.den q.den : ℚ)

/-- Modelled from the spec: length of one polyline segment — Euclidean
distance for a line segment (zero bulge), a collaborator-supplied length,
abstracted as the arcLen argument, for an arc segment. -/
def segLen (arcLen : PlineVertex → PlineVertex → ℚ) (a b : PlineVertex) : ℚ :=
  if a.bulge = 0 then ratSqrt ((b.x - a.x) ^ 2 + (b.y - a.y) ^ 2)
  else arcLen a b

/-- Consecutive vertex pairs of a vertex list. -/
def segPairsAux : List PlineVertex → List (PlineVertex × PlineVertex)
  | a :: b :: rest => (a, b) :: segPairsAux (b :: rest)
  | _ => []

/-- Modelled from the spec: the segments of a polyline — each consecutive
vertex pair, plus the closing segment back to the first vertex when the
polyline is closed and has at least two vertices. -/
def Polyline.segPairs (p : Polyline) : List (PlineVertex × PlineVertex) :=
  match p.vertexes with
  | [] => []
  | v :: vs =>
    segPairsAux (v :: vs) ++
      (if p.is_closed ∧ vs ≠ [] then [((v :: vs).getLastD v, v)] else [])

/-- Modelled from the spec: total path length of a polyline. -/
def totalPathLength (arcLen : PlineVertex → PlineVertex → ℚ)
    (p : Polyline) : ℚ :=
  (p.segPairs.map fun sg => segLen arcLen sg.1 sg.2).sum

/-- Modelled from the spec: the point at arc length t from the start of one
segment — linear interpolation along a line segment, a collaborator-supplied
point, abstracted as the arcPt argument, on an arc segment. -/
def segPointAt (arcLen : PlineVertex → PlineVertex → ℚ)
    (arcPt : PlineVertex → PlineVertex → ℚ → ℚ × ℚ)
    (a b : PlineVertex) (t : ℚ) : ℚ × ℚ :=
  if a.bulge = 0 then
    let L := segLen arcLen a b
    if L = 0 then (a.x, a.y)
    else (a.x + t / L * (b.x - a.x), a.y + t / L * (b.y - a.y))
  else arcPt a b t

/-- Modelled from the spec: walk the segments from the start, accumulating
length, until the target arc length falls inside a segment; the last
segment absorbs the remainder. -/
def findPointAux (arcLen : PlineVertex → PlineVertex → ℚ)
    (arcPt : PlineVertex → PlineVertex → ℚ → ℚ × ℚ) :
    List (PlineVertex × PlineVertex) → ℚ → Nat → Nat × ℚ × ℚ
  | [], _, idx => (idx, 0, 0)
  | [sg], t, idx => (idx, segPointAt arcLen arcPt sg.1 sg.2 t)
  | sg :: rest, t, idx =>
    if t ≤ segLen arcLen sg.1 sg.2 then
      (idx, segPointAt arcLen arcPt sg.1 sg.2 t)
    else findPointAux arcLen arcPt rest (t - segLen arcLen sg.1 sg.2) (idx + 1)

/-- Modelled from the spec: the collaborator's find_point_at_path_length —
an error when the polyline is empty or the target exceeds the total path
length (no extrapolation past the end), otherwise the segment index and the
point at that arc length measured from the polyline's start. -/
def spec_find_point_at_path_length (arcLen : PlineVertex → PlineVertex → ℚ)
    (arcPt : PlineVertex → PlineVertex → ℚ → ℚ × ℚ)
    (p : Polyline) (target : ℚ) : Except Unit (Nat × ℚ × ℚ) :=
  if p.segPairs = [] then .error ()
  else if totalPathLength arcLen p < target then .error ()
  else .ok (findPointAux arcLen arcPt p.segPairs target 0)

/-- Cross product term of the shoelace formula. -/
def cross2 (a b : PlineVertex) : ℚ := a.x * b.y - b.x * a.y

/-- Shoelace sum over consecutive vertices, closing back to v0. -/
def area2Aux (v0 : PlineVertex) : List PlineVertex → ℚ
  | a :: b :: rest => cross2 a b + area2Aux v0 (b :: rest)
  | [a] => cross2 a v0
  | [] => 0

/-- Modelled from the spec: twice the signed area of the vertex cycle. -/
def cyclicArea2 (vs : List PlineVertex) : ℚ :=
  match vs with
  | [] => 0
  | v :: _ => area2Aux v vs

/-- Modelled from the spec: the collaborator's orientation classification —
Open for an open polyline and for a degenerate (zero signed area) closed
one, otherwise Clockwise for negative signed area and CounterClockwise for
positive signed area. -/
def spec_orientation (p : Polyline) : PlineOrientation :=
  if p.is_closed = false then .Open
  else if cyclicArea2 p.vertexes = 0 then .Open
  else if cyclicArea2 p.vertexes < 0 then .Clockwise
  else .CounterClockwise

/-- Modelled from the spec: the collaborator's closest-point query is
defined (returns a result) exactly when the polyline has at least one
segment; the result payload is collaborator-computed, abstracted as the cp
argument. -/
def spec_closest_point (cp : Polyline → Vec2 → ℚ → ClosestPointResult)
    (p : Polyline) (pt : Vec2) (eps : ℚ) : Option ClosestPointResult :=
  if segment_count p = 0 then none else some (cp p pt eps)

/-- True when some vertex carries a nonzero bulge, i.e. an arc segment. -/
def hasArc (p : Polyline) : Bool :=
  p.vertexes.any fun v => decide (v.bulge ≠ 0)

/-- Modelled from the spec: the collaborator's arc linearization returns
"no change needed" (none) exactly when the input has no arc segment, and
otherwise a collaborator-computed linearized polyline, abstracted as the
lin argument. -/
def spec_arcs_to_approx_lines (lin : Polyline → ℚ → Polyline)
    (p : Polyline) (eps : ℚ) : Option Polyline :=
  if hasArc p then some (lin p eps) else none

/-- Modelled from the spec: the collaborator's start rotation fails (none)
exactly when the polyline is open, the start index is out of range, or the
split point is not within tolerance of the indicated segment; the tolerance
test and the rotated value are collaborator-computed, abstracted as the
onSeg and rot arguments. -/
def spec_rotate_start (onSeg : Polyline → Nat → Vec2 → ℚ → Bool)
    (rot : Polyline → Nat → Vec2 → ℚ → Polyline)
    (p : Polyline) (idx : Nat) (pt : Vec2) (eps : ℚ) : Option Polyline :=
  if p.is_closed = false then none
  else if p.vertexes.length ≤ idx then none
  else if onSeg p idx pt eps = false then none
  else some (rot p idx pt eps)

/-- The collaborator assembled from the spec-modelled operations: no call
faults, and each collaborator-computed payload is an oracle argument. -/
def specCollab (cp : Polyline → Vec2 → ℚ → ClosestPointResult)
    (arcLen : PlineVertex → PlineVertex → ℚ)
    (arcPt : PlineVertex → PlineVertex → ℚ → ℚ × ℚ)
    (onSeg : Polyline → Nat → Vec2 → ℚ → Bool)
    (rot : Polyline → Nat → Vec2 → ℚ → Polyline)
    (lin : Polyline → ℚ → Polyline)
    (fi : Polyline → Polyline → ℚ → IntersectCollection) : Collab where
  orientation := fun p => .ok (spec_orientation p)
  closest_point := fun p pt eps => .ok (spec_closest_point cp p pt eps)
  find_point_at_path_length := fun p t =>
    .ok (spec_find_point_at_path_length arcLen arcPt p t)
  arcs_to_approx_lines := fun p e => .ok (spec_arcs_to_approx_lines lin p e)
  rotate_start := fun p i pt e => .ok (spec_rotate_start onSeg rot p i pt e)
  find_intersects_opt := fun p1 p2 e => .ok (fi p1 p2 e)

/-- A collaborator every call of which faults, exercising the barrier. -/
def panicCollab : Collab where
  orientation := fun _ => .error ()
  closest_point := fun _ _ _ => .error ()
  find_point_at_path_length := fun _ _ => .error ()
  arcs_to_approx_lines := fun _ _ => .error ()
  rotate_start := fun _ _ _ _ => .error ()
  find_intersects_opt := fun _ _ _ => .error ()

/-- Concrete closest-point payload oracle used in witnesses. -/
def cpQ : Polyline → Vec2 → ℚ → ClosestPointResult := fun _ _ _ => ⟨0, ⟨0, 0⟩, 0⟩

/-- Concrete arc-length oracle used in witnesses. -/
def arcLenQ : PlineVertex → PlineVertex → ℚ := fun _ _ => 0

/-- Concrete arc-point oracle used in witnesses. -/
def arcPtQ : PlineVertex → PlineVertex → ℚ → ℚ × ℚ := fun _ _ _ => (0, 0)

/-- Concrete on-segment tolerance oracle used in witnesses. -/
def onSegQ : Polyline → Nat → Vec2 → ℚ → Bool := fun _ _ _ _ => true

/-- Concrete rotated-value oracle used in witnesses. -/
def rotQ : Polyline → Nat → Vec2 → ℚ → Polyline := fun p _ _ _ => p

/-- Concrete linearized-value oracle used in witnesses. -/
def linQ : Polyline → ℚ → Polyline := fun p _ => p

/-- Concrete intersect-collection oracle used in witnesses. -/
def fiQ : Polyline → Polyline → ℚ → IntersectCollection := fun _ _ _ => ⟨[], []⟩

/-- The fully concrete spec-modelled collaborator used in witnesses. -/
def CQ : Collab := specCollab cpQ arcLenQ arcPtQ onSegQ rotQ linQ fiQ

/-- The single straight segment from (0,0) to (10,0). -/
def P1 : Polyline := ⟨[⟨0, 0, 0⟩, ⟨10, 0, 0⟩], false⟩

/-- A closed unit square, counterclockwise. -/
def PSquare : Polyline := ⟨[⟨0, 0, 0⟩, ⟨1, 0, 0⟩, ⟨1, 1, 0⟩, ⟨0, 1, 0⟩], true⟩

/-- A heap holding P1 at address 1 and PSquare at address 2. -/
def S1 : State :=
  ⟨fun q => if q = 1 then some P1 else if q = 2 then some PSquare else none,
    fun _ => none, 3⟩

/-- An intersection collection holding one basic intersect and no
overlapping intersects. -/
def IC1 : cavc_intersects_result_val := ⟨[⟨0, 2, ⟨1, 2⟩⟩], []⟩

/-- A heap holding IC1 at address 1. -/
def SR1 : State := ⟨fun _ => none, fun q => if q = 1 then some IC1 else none, 2⟩

/-- The heap S1 is well formed. -/
theorem S1_WF : State.WF S1 := by
  refine ⟨rfl, rfl, by decide, ?_, fun q _ => rfl⟩
  intro q hq
  have hq3 : 3 ≤ q := hq
  have h1 : q ≠ 1 := by omega
  have h2 : q ≠ 2 := by omega
  simp [S1, h1, h2]

/-- The heap SR1 is well formed. -/
theorem SR1_WF : State.WF SR1 := by
  refine ⟨rfl, rfl, by decide, fun q _ => rfl, ?_⟩
  intro q hq
  have hq2 : 2 ≤ q := hq
  have h1 : q ≠ 1 := by omega
  simp [SR1, h1]

/-- C1: every wrapped boundary entry point converts a fault of its wrapped
computation into the reserved sentinel status -1, leaving every output
pointer unwritten and the heap untouched, and the sentinel -1 never
coincides with any operation-specific code 0, 1, 2, .... -/
theorem C1_panic_barrier :
    (∀ C s p, cavc_pline_orientation_body C s p = .error () →
      cavc_pline_orientation C s p = (s, -1, none)) ∧
    (∀ C s p x y e, cavc_pline_closest_point_body C s p x y e = .error () →
      cavc_pline_closest_point C s p x y e = (s, -1, none)) ∧
    (∀ C s p t, cavc_pline_find_point_at_path_length_body C s p t = .error () →
      cavc_pline_find_point_at_path_length C s p t = (s, -1, none)) ∧
    (∀ C s p e, cavc_pline_arcs_to_approx_lines_body C s p e = .error () →
      cavc_pline_arcs_to_approx_lines C s p e = (s, -1, none)) ∧
    (∀ C s p i x y e, cavc_pline_rotate_start_body C s p i x y e = .error () →
      cavc_pline_rotate_start C s p i x y e = (s, -1)) ∧
    (∀ C s p1 p2 e, cavc_pline_find_intersects_body C s p1 p2 e = .error () →
      cavc_pline_find_intersects C s p1 p2 e = (s, -1, none)) ∧
    (∀ s r, cavc_intersects_result_get_basic_count_body s r = .error () →
      cavc_intersects_result_get_basic_count s r = (s, -1, none)) ∧
    (∀ s r i, cavc_intersects_result_get_basic_body s r i = .error () →
      cavc_intersects_result_get_basic s r i = (s, -1, none)) ∧
    (∀ s r, cavc_intersects_result_get_overlapping_count_body s r = .error () →
      cavc_intersects_result_get_overlapping_count s r = (s, -1, none)) ∧
    (∀ s r i, cavc_intersects_result_get_overlapping_body s r i = .error () →
      cavc_intersects_result_get_overlapping s r i = (s, -1, none)) ∧
    (∀ n : Nat, (-1 : Int) ≠ (n : Int)) := by
  refine ⟨?_, ?_, ?_, ?_, ?_, ?_, ?_, ?_, ?_, ?_, fun n => by omega⟩
  · intro C s p h
    unfold cavc_pline_orientation
    rw [h]
    rfl
  · intro C s p x y e h
    unfold cavc_pline_closest_point
    rw [h]
    rfl
  · intro C s p t h
    unfold cavc_pline_find_point_at_path_length
    rw [h]
    rfl
  · intro C s p e h
    unfold cavc_pline_arcs_to_approx_lines
    rw [h]
    rfl
  · intro C s p i x y e h
    unfold cavc_pline_rotate_start
    rw [h]
    rfl
  · intro C s p1 p2 e h
    unfold cavc_pline_find_intersects
    rw [h]
    rfl
  · intro s r h
    unfold cavc_intersects_result_get_basic_count
    rw [h]
    rfl
  · intro s r i h
    unfold cavc_intersects_result_get_basic
    rw [h]
    rfl
  · intro s r h
    unfold cavc_intersects_result_get_overlapping_count
    rw [h]
    rfl
  · intro s r i h
    unfold cavc_intersects_result_get_overlapping
    rw [h]
    rfl

/-- C1 witness: with a collaborator whose calls fault, the orientation
query on a valid non-null handle returns the sentinel -1, writes nothing,
and leaves the heap untouched. -/
theorem C1_panic_barrier_witness :
    cavc_pline_orientation panicCollab S1 1 = (S1, -1, none) :=
  C1_panic_barrier.1 panicCollab S1 1 rfl

/-- C2: with a null required pointer every operation returns code 1 with
the heap untouched and no output pointer written, and it does so before any
computation: the result is the same for every collaborator and heap. -/
theorem C2_null_pointer_code1 :
    (∀ C s, cavc_pline_orientation C s 0 = (s, 1, none)) ∧
    (∀ C s x y e, cavc_pline_closest_point C s 0 x y e = (s, 1, none)) ∧
    (∀ C s t, cavc_pline_find_point_at_path_length C s 0 t = (s, 1, none)) ∧
    (∀ C s e, cavc_pline_arcs_to_approx_lines C s 0 e = (s, 1, none)) ∧
    (∀ C s i x y e, cavc_pline_rotate_start C s 0 i x y e = (s, 1)) ∧
    (∀ C s p1 p2 e, p1 = 0 ∨ p2 = 0 →
      cavc_pline_find_intersects C s p1 p2 e = (s, 1, none)) ∧
    (∀ s, cavc_intersects_result_get_basic_count s 0 = (s, 1, none)) ∧
    (∀ s i, cavc_intersects_result_get_basic s 0 i = (s, 1, none)) ∧
    (∀ s, cavc_intersects_result_get_overlapping_count s 0 = (s, 1, none)) ∧
    (∀ s i, cavc_intersects_result_get_overlapping s 0 i = (s, 1, none)) := by
  refine ⟨fun C s => rfl, fun C s x y e => rfl, fun C s t => rfl,
    fun C s e => rfl, fun C s i x y e => rfl, ?_, fun s => rfl,
    fun s i => rfl, fun s => rfl, fun s i => rfl⟩
  intro C s p1 p2 e h
  unfold cavc_pline_find_intersects cavc_pline_find_intersects_body
  rw [if_pos h]
  rfl

/-- C2 witness: a concrete call with the second handle null returns code 1
without writing the result pointer. -/
theorem C2_null_pointer_code1_witness :
    ((1 : Nat) = 0 ∨ (0 : Nat) = 0) ∧
      cavc_pline_find_intersects CQ S1 1 0 0 = (S1, 1, none) :=
  ⟨Or.inr rfl, C2_null_pointer_code1.2.2.2.2.2.1 CQ S1 1 0 0 (Or.inr rfl)⟩

/-- C3: start rotation on a valid non-null handle (collaborator modelled
from the spec) returns code 2 exactly when the polyline is open or the
index/point combination is invalid; on any error the heap is exactly as it
was before the call; on success the same pointer maps to the rotated value
and no other heap cell, no result handle and no allocation state changes. -/
theorem C3_rotate_start_code2_and_frame
    (onSeg : Polyline → Nat → Vec2 → ℚ → Bool)
    (rot : Polyline → Nat → Vec2 → ℚ → Polyline)
    (s : State) (ptr idx : Nat) (px py eps : ℚ) (p : Polyline)
    (hptr : ptr ≠ 0) (hp : s.plines ptr = some p) :
    ((cavc_pline_rotate_start (specCollab cpQ arcLenQ arcPtQ onSeg rot linQ fiQ)
        s ptr idx px py eps).2 = 2 ↔
      (p.is_closed = false ∨ p.vertexes.length ≤ idx ∨
        onSeg p idx ⟨px, py⟩ eps = false)) ∧
    ((cavc_pline_rotate_start (specCollab cpQ arcLenQ arcPtQ onSeg rot linQ fiQ)
        s ptr idx px py eps).2 ≠ 0 →
      (cavc_pline_rotate_start (specCollab cpQ arcLenQ arcPtQ onSeg rot linQ fiQ)
        s ptr idx px py eps).1 = s) ∧
    ((cavc_pline_rotate_start (specCollab cpQ arcLenQ arcPtQ onSeg rot linQ fiQ)
        s ptr idx px py eps).2 = 0 →
      ((cavc_pline_rotate_start (specCollab cpQ arcLenQ arcPtQ onSeg rot linQ fiQ)
          s ptr idx px py eps).1.plines ptr = some (rot p idx ⟨px, py⟩ eps) ∧
        (∀ q, q ≠ ptr →
          (cavc_pline_rotate_start (specCollab cpQ arcLenQ arcPtQ onSeg rot linQ fiQ)
            s ptr idx px py eps).1.plines q = s.plines q) ∧
        (cavc_pline_rotate_start (specCollab cpQ arcLenQ arcPtQ onSeg rot linQ fiQ)
          s ptr idx px py eps).1.results = s.results ∧
        (cavc_pline_rotate_start (specCollab cpQ arcLenQ arcPtQ onSeg rot linQ fiQ)
          s ptr idx px py eps).1.alloc = s.alloc)) := by
  by_cases h1 : p.is_closed = false
  · simp +contextual [cavc_pline_rotate_start, cavc_pline_rotate_start_body,
      ffi_catch_unwind, specCollab, spec_rotate_start, hptr, hp, h1, setPline]
  · by_cases h2 : p.vertexes.length ≤ idx
    · simp +contextual [cavc_pline_rotate_start, cavc_pline_rotate_start_body,
        ffi_catch_unwind, specCollab, spec_rotate_start, hptr, hp, h1, h2,
        setPline]
    · by_cases h3 : onSeg p idx ⟨px, py⟩ eps = false
      · simp +contextual [cavc_pline_rotate_start, cavc_pline_rotate_start_body,
          ffi_catch_unwind, specCollab, spec_rotate_start, hptr, hp, h1, h2, h3,
          setPline]
      · simp +contextual [cavc_pline_rotate_start, cavc_pline_rotate_start_body,
          ffi_catch_unwind, specCollab, spec_rotate_start, hptr, hp, h1, h2, h3,
          setPline]

/-- C3 witness: start rotation on the open polyline P1 behind handle 1
fails, and the failure code is 2 because the polyline is open. -/
theorem C3_rotate_start_witness :
    (1 : Nat) ≠ 0 ∧ S1.plines 1 = some P1 ∧
      ((cavc_pline_rotate_start (specCollab cpQ arcLenQ arcPtQ onSegQ rotQ linQ fiQ)
          S1 1 0 5 0 0).2 = 2 ↔
        (P1.is_closed = false ∨ P1.vertexes.length ≤ 0 ∨
          onSegQ P1 0 ⟨5, 0⟩ 0 = false)) :=
  ⟨by decide, rfl,
    (C3_rotate_start_code2_and_frame onSegQ rotQ S1 1 0 5 0 0 P1 (by decide) rfl).1⟩

/-- C4: path-length point lookup on a valid non-null handle (collaborator
modelled from the spec) returns code 2 exactly when the polyline is empty
or the target exceeds the total path length, and otherwise returns 0 and
writes the segment index and point coordinates; concretely, on the single
straight segment from (0,0) to (10,0) a target of 5 yields segment index 0
and point (5,0), and a target of 15 yields code 2 with nothing written. -/
theorem C4_find_point_at_path_length
    (arcLen : PlineVertex → PlineVertex → ℚ)
    (arcPt : PlineVertex → PlineVertex → ℚ → ℚ × ℚ)
    (s : State) (ptr : Nat) (t : ℚ) (p : Polyline)
    (hptr : ptr ≠ 0) (hp : s.plines ptr = some p) :
    ((cavc_pline_find_point_at_path_length
        (specCollab cpQ arcLen arcPt onSegQ rotQ linQ fiQ) s ptr t).2.1 = 2 ↔
      (p.segPairs = [] ∨ totalPathLength arcLen p < t)) ∧
    (¬(p.segPairs = [] ∨ totalPathLength arcLen p < t) →
      cavc_pline_find_point_at_path_length
          (specCollab cpQ arcLen arcPt onSegQ rotQ linQ fiQ) s ptr t =
        (s, 0, some (u32of (findPointAux arcLen arcPt p.segPairs t 0).1,
          (findPointAux arcLen arcPt p.segPairs t 0).2.1,
          (findPointAux arcLen arcPt p.segPairs t 0).2.2))) ∧
    (cavc_pline_find_point_at_path_length
        (specCollab cpQ arcLenQ arcPtQ onSegQ rotQ linQ fiQ) S1 1 5).2 =
      (0, some (0, 5, 0)) ∧
    (cavc_pline_find_point_at_path_length
        (specCollab cpQ arcLenQ arcPtQ onSegQ rotQ linQ fiQ) S1 1 15).2 =
      (2, none) := by
  refine ⟨?_, ?_, ?_, ?_⟩
  · by_cases he : p.segPairs = []
    · simp [cavc_pline_find_point_at_path_length,
        cavc_pline_find_point_at_path_length_body, ffi_catch_unwind,
        specCollab, spec_find_point_at_path_length, hptr, hp, he]
    · by_cases hx : totalPathLength arcLen p < t
      · simp [cavc_pline_find_point_at_path_length,
          cavc_pline_find_point_at_path_length_body, ffi_catch_unwind,
          specCollab, spec_find_point_at_path_length, hptr, hp, he, hx]
      · rcases hfp : findPointAux arcLen arcPt p.segPairs t 0 with ⟨idx, px, py⟩
        simp [cavc_pline_find_point_at_path_length,
          cavc_pline_find_point_at_path_length_body, ffi_catch_unwind,
          specCollab, spec_find_point_at_path_length, hptr, hp, he, hx, hfp]
  · intro hnot
    rw [not_or] at hnot
    rcases hfp : findPointAux arcLen arcPt p.segPairs t 0 with ⟨idx, px, py⟩
    simp [cavc_pline_find_point_at_path_length,
      cavc_pline_find_point_at_path_length_body, ffi_catch_unwind,
      specCollab, spec_find_point_at_path_length, hptr, hp, hnot.1, hnot.2, hfp]
  · norm_num [cavc_pline_find_point_at_path_length,
      cavc_pline_find_point_at_path_length_body, ffi_catch_unwind, specCollab,
      spec_find_point_at_path_length, Polyline.segPairs, segPairsAux,
      totalPathLength, segLen, ratSqrt, isqrtAux, segPointAt, findPointAux,
      S1, P1, u32of, Rat.num_ofNat, Rat.den_ofNat]
  · norm_num [cavc_pline_find_point_at_path_length,
      cavc_pline_find_point_at_path_length_body, ffi_catch_unwind, specCollab,
      spec_find_point_at_path_length, Polyline.segPairs, segPairsAux,
      totalPathLength, segLen, ratSqrt, isqrtAux, segPointAt, findPointAux,
      S1, P1, u32of, Rat.num_ofNat, Rat.den_ofNat]

/-- C4 witness: handle 1 of the heap S1 is valid and non-null, and the
lookup with target 5 on it writes segment index 0 and point (5,0). -/
theorem C4_find_point_at_path_length_witness :
    (1 : Nat) ≠ 0 ∧ S1.plines 1 = some P1 ∧
      (cavc_pline_find_point_at_path_length
        (specCollab cpQ arcLenQ arcPtQ onSegQ rotQ linQ fiQ) S1 1 5).2 =
        (0, some (0, 5, 0)) :=
  ⟨by decide, rfl,
    (C4_find_point_at_path_length arcLenQ arcPtQ S1 1 5 P1 (by decide)
      rfl).2.2.1⟩

/-- C5: closest-point query on a valid non-null handle (collaborator
modelled from the spec) returns code 2 exactly when the polyline has zero
segments, and with at least one segment it returns 0 for every query point
and tolerance, writing the containing segment index, the closest point's
coordinates and the distance. -/
theorem C5_closest_point_code2_iff
    (cp : Polyline → Vec2 → ℚ → ClosestPointResult)
    (s : State) (ptr : Nat) (x y eps : ℚ) (p : Polyline)
    (hptr : ptr ≠ 0) (hp : s.plines ptr = some p) :
    ((cavc_pline_closest_point (specCollab cp arcLenQ arcPtQ onSegQ rotQ linQ fiQ)
        s ptr x y eps).2.1 = 2 ↔ segment_count p = 0) ∧
    (segment_count p ≠ 0 →
      cavc_pline_closest_point (specCollab cp arcLenQ arcPtQ onSegQ rotQ linQ fiQ)
          s ptr x y eps =
        (s, 0, some (u32of (cp p ⟨x, y⟩ eps).seg_start_index,
          (cp p ⟨x, y⟩ eps).seg_point.x, (cp p ⟨x, y⟩ eps).seg_point.y,
          (cp p ⟨x, y⟩ eps).distance))) := by
  by_cases hsc : segment_count p = 0
  · simp [cavc_pline_closest_point, cavc_pline_closest_point_body,
      ffi_catch_unwind, specCollab, spec_closest_point, hptr, hp, hsc]
  · simp [cavc_pline_closest_point, cavc_pline_closest_point_body,
      ffi_catch_unwind, specCollab, spec_closest_point, hptr, hp, hsc]

/-- C5 witness: the polyline P1 behind handle 1 has one segment, and the
query returns 0 and writes the collaborator-computed record. -/
theorem C5_closest_point_witness :
    segment_count P1 ≠ 0 ∧
      cavc_pline_closest_point (specCollab cpQ arcLenQ arcPtQ onSegQ rotQ linQ fiQ)
          S1 1 3 4 1 =
        (S1, 0, some (u32of (cpQ P1 ⟨3, 4⟩ 1).seg_start_index,
          (cpQ P1 ⟨3, 4⟩ 1).seg_point.x, (cpQ P1 ⟨3, 4⟩ 1).seg_point.y,
          (cpQ P1 ⟨3, 4⟩ 1).distance)) :=
  ⟨by decide,
    (C5_closest_point_code2_iff cpQ S1 1 3 4 1 P1 (by decide) rfl).2 (by decide)⟩

/-- Any empty or degenerate (zero signed area) polyline is classified
Open by the spec-modelled orientation. -/
theorem spec_orientation_degenerate (p : Polyline)
    (h : p.vertexes = [] ∨ cyclicArea2 p.vertexes = 0) :
    spec_orientation p = .Open := by
  rcases h with h | h
  · have h0 : cyclicArea2 p.vertexes = 0 := by rw [h]; rfl
    simp [spec_orientation, h0, ite_self]
  · simp [spec_orientation, h, ite_self]

/-- C6: orientation query on a valid non-null handle always returns 0 and
writes exactly one tri-state value — 0 for Open, 1 for Clockwise, 2 for
CounterClockwise — leaving the heap untouched; an empty or degenerate
polyline is classified Open (0); the only failure mode is code 1 on a null
handle. -/
theorem C6_orientation_total
    (cp : Polyline → Vec2 → ℚ → ClosestPointResult)
    (arcLen : PlineVertex → PlineVertex → ℚ)
    (arcPt : PlineVertex → PlineVertex → ℚ → ℚ × ℚ)
    (onSeg : Polyline → Nat → Vec2 → ℚ → Bool)
    (rot : Polyline → Nat → Vec2 → ℚ → Polyline)
    (lin : Polyline → ℚ → Polyline)
    (fi : Polyline → Polyline → ℚ → IntersectCollection)
    (s : State) (ptr : Nat) (p : Polyline)
    (hptr : ptr ≠ 0) (hp : s.plines ptr = some p) :
    (cavc_pline_orientation (specCollab cp arcLen arcPt onSeg rot lin fi)
        s ptr).1 = s ∧
    (cavc_pline_orientation (specCollab cp arcLen arcPt onSeg rot lin fi)
        s ptr).2.1 = 0 ∧
    (cavc_pline_orientation (specCollab cp arcLen arcPt onSeg rot lin fi)
        s ptr).2.2 = some (orientCode (spec_orientation p)) ∧
    ((cavc_pline_orientation (specCollab cp arcLen arcPt onSeg rot lin fi)
        s ptr).2.2 = some 0 ∨
      (cavc_pline_orientation (specCollab cp arcLen arcPt onSeg rot lin fi)
        s ptr).2.2 = some 1 ∨
      (cavc_pline_orientation (specCollab cp arcLen arcPt onSeg rot lin fi)
        s ptr).2.2 = some 2) ∧
    ((p.vertexes = [] ∨ cyclicArea2 p.vertexes = 0) →
      (cavc_pline_orientation (specCollab cp arcLen arcPt onSeg rot lin fi)
        s ptr).2.2 = some 0) ∧
    (∀ C2 s2, cavc_pline_orientation C2 s2 0 = (s2, 1, none)) := by
  have hr : cavc_pline_orientation (specCollab cp arcLen arcPt onSeg rot lin fi)
      s ptr = (s, 0, some (orientCode (spec_orientation p))) := by
    simp [cavc_pline_orientation, cavc_pline_orientation_body,
      ffi_catch_unwind, specCollab, hptr, hp]
  refine ⟨by rw [hr], by rw [hr], by rw [hr], ?_, ?_, fun C2 s2 => rfl⟩
  · rw [hr]
    cases hso : spec_orientation p <;> simp [orientCode]
  · intro h
    rw [hr, spec_orientation_degenerate p h]
    rfl

/-- C6 witness: orientation of the closed square behind handle 2 of S1
returns status 0, leaves the heap untouched and writes its tri-state
classification. -/
theorem C6_orientation_witness :
    (2 : Nat) ≠ 0 ∧ S1.plines 2 = some PSquare ∧
      (cavc_pline_orientation (specCollab cpQ arcLenQ arcPtQ onSegQ rotQ linQ fiQ)
        S1 2).2.1 = 0 :=
  ⟨by decide, rfl,
    (C6_orientation_total cpQ arcLenQ arcPtQ onSegQ rotQ linQ fiQ S1 2 PSquare
      (by decide) rfl).2.1⟩

/-- C7: arc linearization on a valid non-null handle of a well-formed heap
(collaborator modelled from the spec) always returns 0 and writes a newly
allocated handle distinct from the input pointer; the input polyline is
never mutated; when the input has no arcs the new handle holds a
value-identical copy of the input; the only error is code 1 on null. -/
theorem C7_arcs_to_approx_lines_new_handle
    (lin : Polyline → ℚ → Polyline) (s : State) (ptr : Nat) (eps : ℚ)
    (p : Polyline) (hwf : State.WF s) (hptr : ptr ≠ 0)
    (hp : s.plines ptr = some p) :
    (cavc_pline_arcs_to_approx_lines
        (specCollab cpQ arcLenQ arcPtQ onSegQ rotQ lin fiQ) s ptr eps).2.1 = 0 ∧
    (cavc_pline_arcs_to_approx_lines
        (specCollab cpQ arcLenQ arcPtQ onSegQ rotQ lin fiQ) s ptr eps).2.2 =
      some s.alloc ∧
    s.alloc ≠ ptr ∧
    (cavc_pline_arcs_to_approx_lines
        (specCollab cpQ arcLenQ arcPtQ onSegQ rotQ lin fiQ) s ptr eps).1.plines
      ptr = some p ∧
    (∀ q, q ≠ s.alloc →
      (cavc_pline_arcs_to_approx_lines
        (specCollab cpQ arcLenQ arcPtQ onSegQ rotQ lin fiQ) s ptr eps).1.plines
        q = s.plines q) ∧
    (hasArc p = false →
      (cavc_pline_arcs_to_approx_lines
        (specCollab cpQ arcLenQ arcPtQ onSegQ rotQ lin fiQ) s ptr eps).1.plines
        s.alloc = some p) ∧
    (hasArc p = true →
      (cavc_pline_arcs_to_approx_lines
        (specCollab cpQ arcLenQ arcPtQ onSegQ rotQ lin fiQ) s ptr eps).1.plines
        s.alloc = some (lin p eps)) ∧
    (∀ C2 s2 e2, cavc_pline_arcs_to_approx_lines C2 s2 0 e2 = (s2, 1, none)) := by
  have hlt : ptr < s.alloc := by
    by_contra hge
    have h2 := hwf.2.2.2.1 ptr (Nat.le_of_not_lt hge)
    rw [hp] at h2
    exact Option.noConfusion h2
  have halne : s.alloc ≠ ptr := by omega
  have hne2 : ptr ≠ s.alloc := by omega
  cases ha : hasArc p
  · have hr : cavc_pline_arcs_to_approx_lines
        (specCollab cpQ arcLenQ arcPtQ onSegQ rotQ lin fiQ) s ptr eps =
        (⟨fun q => if q = s.alloc then some p else s.plines q,
          s.results, s.alloc + 1⟩, 0, some s.alloc) := by
      simp [cavc_pline_arcs_to_approx_lines, cavc_pline_arcs_to_approx_lines_body,
        ffi_catch_unwind, specCollab, spec_arcs_to_approx_lines, allocPline,
        Polyline.create_from, hptr, hp, ha]
    refine ⟨by rw [hr], by rw [hr], halne, ?_, ?_, ?_, ?_, fun C2 s2 e2 => rfl⟩
    · rw [hr]
      simp [hne2, hp]
    · intro q hq
      rw [hr]
      simp [hq]
    · intro hx
      rw [hr]
      simp
    · intro hx
      exact Bool.noConfusion hx
  · have hr : cavc_pline_arcs_to_approx_lines
        (specCollab cpQ arcLenQ arcPtQ onSegQ rotQ lin fiQ) s ptr eps =
        (⟨fun q => if q = s.alloc then some (lin p eps) else s.plines q,
          s.results, s.alloc + 1⟩, 0, some s.alloc) := by
      simp [cavc_pline_arcs_to_approx_lines, cavc_pline_arcs_to_approx_lines_body,
        ffi_catch_unwind, specCollab, spec_arcs_to_approx_lines, allocPline,
        hptr, hp, ha]
    refine ⟨by rw [hr], by rw [hr], halne, ?_, ?_, ?_, ?_, fun C2 s2 e2 => rfl⟩
    · rw [hr]
      simp [hne2, hp]
    · intro q hq
      rw [hr]
      simp [hq]
    · intro hx
      exact Bool.noConfusion hx
    · intro hx
      rw [hr]
      simp

/-- C7 witness: linearizing the arc-free polyline P1 behind handle 1 of the
well-formed heap S1 returns 0, hands out the fresh handle 3, and that
fresh handle holds a value-identical copy of P1. -/
theorem C7_arcs_to_approx_lines_witness :
    State.WF S1 ∧ (1 : Nat) ≠ 0 ∧ S1.plines 1 = some P1 ∧ hasArc P1 = false ∧
      (cavc_pline_arcs_to_approx_lines
        (specCollab cpQ arcLenQ arcPtQ onSegQ rotQ linQ fiQ) S1 1 1).1.plines
        S1.alloc = some P1 :=
  ⟨S1_WF, by decide, rfl, by decide,
    (C7_arcs_to_approx_lines_new_handle linQ S1 1 1 P1 S1_WF (by decide)
      rfl).2.2.2.2.2.1 (by decide)⟩

/-- C8: for the two create operations, for every collaborator (faulting or
not), every heap and every argument, the possible status codes are 0, 1
and -1, the new object's address is written through the pointer-to-pointer
output exactly on status 0, and on every non-zero status that output is
left untouched. -/
theorem C8_create_output_written_iff_success (C : Collab) (s : State) :
    (∀ p e,
      ((cavc_pline_arcs_to_approx_lines C s p e).2.1 = 0 ∨
        (cavc_pline_arcs_to_approx_lines C s p e).2.1 = 1 ∨
        (cavc_pline_arcs_to_approx_lines C s p e).2.1 = -1) ∧
      ((cavc_pline_arcs_to_approx_lines C s p e).2.1 ≠ 0 →
        (cavc_pline_arcs_to_approx_lines C s p e).2.2 = none) ∧
      ((cavc_pline_arcs_to_approx_lines C s p e).2.1 = 0 →
        ∃ a, (cavc_pline_arcs_to_approx_lines C s p e).2.2 = some a)) ∧
    (∀ p1 p2 e,
      ((cavc_pline_find_intersects C s p1 p2 e).2.1 = 0 ∨
        (cavc_pline_find_intersects C s p1 p2 e).2.1 = 1 ∨
        (cavc_pline_find_intersects C s p1 p2 e).2.1 = -1) ∧
      ((cavc_pline_find_intersects C s p1 p2 e).2.1 ≠ 0 →
        (cavc_pline_find_intersects C s p1 p2 e).2.2 = none) ∧
      ((cavc_pline_find_intersects C s p1 p2 e).2.1 = 0 →
        ∃ a, (cavc_pline_find_intersects C s p1 p2 e).2.2 = some a)) := by
  constructor
  · intro p e
    by_cases h0 : p = 0
    · have hE : cavc_pline_arcs_to_approx_lines C s p e = (s, 1, none) := by
        simp [cavc_pline_arcs_to_approx_lines,
          cavc_pline_arcs_to_approx_lines_body, ffi_catch_unwind, h0]
      rw [hE]
      exact ⟨Or.inr (Or.inl rfl), fun _ => rfl, fun hx => by simp at hx⟩
    · cases hpl : s.plines p with
      | none =>
        have hE : cavc_pline_arcs_to_approx_lines C s p e = (s, -1, none) := by
          simp [cavc_pline_arcs_to_approx_lines,
            cavc_pline_arcs_to_approx_lines_body, ffi_catch_unwind, h0, hpl]
        rw [hE]
        exact ⟨Or.inr (Or.inr rfl), fun _ => rfl, fun hx => by simp at hx⟩
      | some pl =>
        cases harc : C.arcs_to_approx_lines pl e with
        | error u =>
          have hE : cavc_pline_arcs_to_approx_lines C s p e = (s, -1, none) := by
            simp [cavc_pline_arcs_to_approx_lines,
              cavc_pline_arcs_to_approx_lines_body, ffi_catch_unwind, h0, hpl,
              harc]
          rw [hE]
          exact ⟨Or.inr (Or.inr rfl), fun _ => rfl,
            fun hx => by simp at hx⟩
        | ok ro =>
          cases ro with
          | none =>
            have hO : cavc_pline_arcs_to_approx_lines C s p e =
                ((allocPline s (Polyline.create_from pl)).1, 0,
                  some s.alloc) := by
              simp [cavc_pline_arcs_to_approx_lines,
                cavc_pline_arcs_to_approx_lines_body, ffi_catch_unwind, h0,
                hpl, harc, allocPline]
            rw [hO]
            exact ⟨Or.inl rfl, fun hne => absurd rfl hne,
              fun _ => ⟨s.alloc, rfl⟩⟩
          | some pl2 =>
            have hO : cavc_pline_arcs_to_approx_lines C s p e =
                ((allocPline s pl2).1, 0, some s.alloc) := by
              simp [cavc_pline_arcs_to_approx_lines,
                cavc_pline_arcs_to_approx_lines_body, ffi_catch_unwind, h0,
                hpl, harc, allocPline]
            rw [hO]
            exact ⟨Or.inl rfl, fun hne => absurd rfl hne,
              fun _ => ⟨s.alloc, rfl⟩⟩
  · intro p1 p2 e
    by_cases h0 : p1 = 0 ∨ p2 = 0
    · have hE : cavc_pline_find_intersects C s p1 p2 e = (s, 1, none) := by
        simp [cavc_pline_find_intersects, cavc_pline_find_intersects_body,
          ffi_catch_unwind, h0]
      rw [hE]
      exact ⟨Or.inr (Or.inl rfl), fun _ => rfl, fun hx => by simp at hx⟩
    · cases hpl1 : s.plines p1 with
      | none =>
        have hE : cavc_pline_find_intersects C s p1 p2 e = (s, -1, none) := by
          simp [cavc_pline_find_intersects, cavc_pline_find_intersects_body,
            ffi_catch_unwind, h0, hpl1]
        rw [hE]
        exact ⟨Or.inr (Or.inr rfl), fun _ => rfl, fun hx => by simp at hx⟩
      | some q1 =>
        cases hpl2 : s.plines p2 with
        | none =>
          have hE : cavc_pline_find_intersects C s p1 p2 e = (s, -1, none) := by
            simp [cavc_pline_find_intersects, cavc_pline_find_intersects_body,
              ffi_catch_unwind, h0, hpl1, hpl2]
          rw [hE]
          exact ⟨Or.inr (Or.inr rfl), fun _ => rfl,
            fun hx => by simp at hx⟩
        | some q2 =>
          cases hfi : C.find_intersects_opt q1 q2 e with
          | error u =>
            have hE : cavc_pline_find_intersects C s p1 p2 e = (s, -1, none) := by
              simp [cavc_pline_find_intersects, cavc_pline_find_intersects_body,
                ffi_catch_unwind, h0, hpl1, hpl2, hfi]
            rw [hE]
            exact ⟨Or.inr (Or.inr rfl), fun _ => rfl,
              fun hx => by simp at hx⟩
          | ok col =>
            have hO : cavc_pline_find_intersects C s p1 p2 e =
                ((allocResult s ⟨col.basic_intersects,
                  col.overlapping_intersects⟩).1, 0, some s.alloc) := by
              simp [cavc_pline_find_intersects, cavc_pline_find_intersects_body,
                ffi_catch_unwind, h0, hpl1, hpl2, hfi, allocResult]
            rw [hO]
            exact ⟨Or.inl rfl, fun hne => absurd rfl hne,
              fun _ => ⟨s.alloc, rfl⟩⟩

/-- C8 witness: a faulting linearization call reports a non-zero status
(the sentinel) and leaves the result pointer untouched. -/
theorem C8_create_output_witness :
    (cavc_pline_arcs_to_approx_lines panicCollab S1 1 1).2.1 ≠ 0 ∧
      (cavc_pline_arcs_to_approx_lines panicCollab S1 1 1).2.2 = none :=
  ⟨by decide, ((C8_create_output_written_iff_success panicCollab S1).1 1 1).2.1
    (by decide)⟩

/-- C9: indexed get on a valid non-null intersection-result handle returns
code 2 exactly when the index is at least the count of the queried
sequence, and for every index strictly below the count it returns 0 and
writes a full by-value copy of the record at that index. -/
theorem C9_indexed_get_bounds (s : State) (r : Nat)
    (col : cavc_intersects_result_val) (idx : Nat)
    (hr : r ≠ 0) (hc : s.results r = some col) :
    ((cavc_intersects_result_get_basic s r idx).2.1 = 2 ↔
      col.basic.length ≤ idx) ∧
    (∀ h : idx < col.basic.length,
      cavc_intersects_result_get_basic s r idx =
        (s, 0, some ⟨u32of (col.basic.get ⟨idx, h⟩).start_index1,
          u32of (col.basic.get ⟨idx, h⟩).start_index2,
          (col.basic.get ⟨idx, h⟩).point.x,
          (col.basic.get ⟨idx, h⟩).point.y⟩)) ∧
    ((cavc_intersects_result_get_overlapping s r idx).2.1 = 2 ↔
      col.overlapping.length ≤ idx) ∧
    (∀ h : idx < col.overlapping.length,
      cavc_intersects_result_get_overlapping s r idx =
        (s, 0, some ⟨u32of (col.overlapping.get ⟨idx, h⟩).start_index1,
          u32of (col.overlapping.get ⟨idx, h⟩).start_index2,
          (col.overlapping.get ⟨idx, h⟩).point1.x,
          (col.overlapping.get ⟨idx, h⟩).point1.y,
          (col.overlapping.get ⟨idx, h⟩).point2.x,
          (col.overlapping.get ⟨idx, h⟩).point2.y⟩)) := by
  refine ⟨?_, ?_, ?_, ?_⟩
  · by_cases hlt : idx < col.basic.length
    · simp [cavc_intersects_result_get_basic,
        cavc_intersects_result_get_basic_body, ffi_catch_unwind, hr, hc, hlt]
    · simp [cavc_intersects_result_get_basic,
        cavc_intersects_result_get_basic_body, ffi_catch_unwind, hr, hc, hlt]
      omega
  · intro h
    simp [cavc_intersects_result_get_basic,
      cavc_intersects_result_get_basic_body, ffi_catch_unwind, hr, hc, h]
  · by_cases hlt : idx < col.overlapping.length
    · simp [cavc_intersects_result_get_overlapping,
        cavc_intersects_result_get_overlapping_body, ffi_catch_unwind, hr, hc,
        hlt]
    · simp [cavc_intersects_result_get_overlapping,
        cavc_intersects_result_get_overlapping_body, ffi_catch_unwind, hr, hc,
        hlt]
      omega
  · intro h
    simp [cavc_intersects_result_get_overlapping,
      cavc_intersects_result_get_overlapping_body, ffi_catch_unwind, hr, hc, h]

/-- C9 witness: on the one-element collection behind handle 1 of SR1, the
indexed get at index 1 (equal to the count) returns code 2. -/
theorem C9_indexed_get_witness :
    (1 : Nat) ≠ 0 ∧ SR1.results 1 = some IC1 ∧ IC1.basic.length ≤ 1 ∧
      (cavc_intersects_result_get_basic SR1 1 1).2.1 = 2 :=
  ⟨by decide, rfl, by decide,
    (C9_indexed_get_bounds SR1 1 IC1 1 (by decide) rfl).1.mpr (by decide)⟩

/-- C10: every read-only operation — orientation, closest point,
path-length lookup, arc linearization, intersection finding and all
intersection-collection count and indexed-get accessors — leaves the
contents reachable through every input handle and result pointer
unchanged, for every collaborator (faulting or not), every argument and
every outcome: the pure queries return the heap exactly as it was, and the
two allocating operations change no allocated cell of a well-formed heap. -/
theorem C10_read_only_frame (s : State) (hwf : State.WF s) :
    (∀ C p, (cavc_pline_orientation C s p).1 = s) ∧
    (∀ C p x y e, (cavc_pline_closest_point C s p x y e).1 = s) ∧
    (∀ C p t, (cavc_pline_find_point_at_path_length C s p t).1 = s) ∧
    (∀ C p e q v, s.plines q = some v →
      (cavc_pline_arcs_to_approx_lines C s p e).1.plines q = some v) ∧
    (∀ C p e, (cavc_pline_arcs_to_approx_lines C s p e).1.results =
      s.results) ∧
    (∀ C p1 p2 e, (cavc_pline_find_intersects C s p1 p2 e).1.plines =
      s.plines) ∧
    (∀ C p1 p2 e q v, s.results q = some v →
      (cavc_pline_find_intersects C s p1 p2 e).1.results q = some v) ∧
    (∀ r, (cavc_intersects_result_get_basic_count s r).1 = s) ∧
    (∀ r i, (cavc_intersects_result_get_basic s r i).1 = s) ∧
    (∀ r, (cavc_intersects_result_get_overlapping_count s r).1 = s) ∧
    (∀ r i, (cavc_intersects_result_get_overlapping s r i).1 = s) := by
  refine ⟨?_, ?_, ?_, ?_, ?_, ?_, ?_, ?_, ?_, ?_, ?_⟩
  · intro C p
    by_cases h0 : p = 0
    · simp [cavc_pline_orientation, cavc_pline_orientation_body,
        ffi_catch_unwind, h0]
    · cases hpl : s.plines p with
      | none =>
        simp [cavc_pline_orientation, cavc_pline_orientation_body,
          ffi_catch_unwind, h0, hpl]
      | some pl =>
        cases ho : C.orientation pl with
        | error u =>
          simp [cavc_pline_orientation, cavc_pline_orientation_body,
            ffi_catch_unwind, h0, hpl, ho]
        | ok o =>
          simp [cavc_pline_orientation, cavc_pline_orientation_body,
            ffi_catch_unwind, h0, hpl, ho]
  · intro C p x y e
    by_cases h0 : p = 0
    · simp [cavc_pline_closest_point, cavc_pline_closest_point_body,
        ffi_catch_unwind, h0]
    · cases hpl : s.plines p with
      | none =>
        simp [cavc_pline_closest_point, cavc_pline_closest_point_body,
          ffi_catch_unwind, h0, hpl]
      | some pl =>
        by_cases hsc : segment_count pl = 0
        · simp [cavc_pline_closest_point, cavc_pline_closest_point_body,
            ffi_catch_unwind, h0, hpl, hsc]
        · cases hcp : C.closest_point pl ⟨x, y⟩ e with
          | error u =>
            simp [cavc_pline_closest_point, cavc_pline_closest_point_body,
              ffi_catch_unwind, h0, hpl, hsc, hcp]
          | ok ro =>
            cases ro with
            | none =>
              simp [cavc_pline_closest_point, cavc_pline_closest_point_body,
                ffi_catch_unwind, h0, hpl, hsc, hcp]
            | some rr =>
              simp [cavc_pline_closest_point, cavc_pline_closest_point_body,
                ffi_catch_unwind, h0, hpl, hsc, hcp]
  · intro C p t
    by_cases h0 : p = 0
    · simp [cavc_pline_find_point_at_path_length,
        cavc_pline_find_point_at_path_length_body, ffi_catch_unwind, h0]
    · cases hpl : s.plines p with
      | none =>
        simp [cavc_pline_find_point_at_path_length,
          cavc_pline_find_point_at_path_length_body, ffi_catch_unwind, h0, hpl]
      | some pl =>
        cases hfp : C.find_point_at_path_length pl t with
        | error u =>
          simp [cavc_pline_find_point_at_path_length,
            cavc_pline_find_point_at_path_length_body, ffi_catch_unwind, h0,
            hpl, hfp]
        | ok ro =>
          cases ro with
          | error u2 =>
            simp [cavc_pline_find_point_at_path_length,
              cavc_pline_find_point_at_path_length_body, ffi_catch_unwind, h0,
              hpl, hfp]
          | ok trip =>
            rcases trip with ⟨idx, px, py⟩
            simp [cavc_pline_find_point_at_path_length,
              cavc_pline_find_point_at_path_length_body, ffi_catch_unwind, h0,
              hpl, hfp]
  · intro C p e q v hv
    have hqa : q ≠ s.alloc := by
      intro hx
      rw [hx, hwf.2.2.2.1 s.alloc (Nat.le_refl _)] at hv
      exact Option.noConfusion hv
    by_cases h0 : p = 0
    · simp [cavc_pline_arcs_to_approx_lines,
        cavc_pline_arcs_to_approx_lines_body, ffi_catch_unwind, h0, hv]
    · cases hpl : s.plines p with
      | none =>
        simp [cavc_pline_arcs_to_approx_lines,
          cavc_pline_arcs_to_approx_lines_body, ffi_catch_unwind, h0, hpl, hv]
      | some pl =>
        cases harc : C.arcs_to_approx_lines pl e with
        | error u =>
          simp [cavc_pline_arcs_to_approx_lines,
            cavc_pline_arcs_to_approx_lines_body, ffi_catch_unwind, h0, hpl,
            harc, hv]
        | ok ro =>
          cases ro with
          | none =>
            simp [cavc_pline_arcs_to_approx_lines,
              cavc_pline_arcs_to_approx_lines_body, ffi_catch_unwind, h0, hpl,
              harc, allocPline, hqa, hv]
          | some pl2 =>
            simp [cavc_pline_arcs_to_approx_lines,
              cavc_pline_arcs_to_approx_lines_body, ffi_catch_unwind, h0, hpl,
              harc, allocPline, hqa, hv]
  · intro C p e
    by_cases h0 : p = 0
    · simp [cavc_pline_arcs_to_approx_lines,
        cavc_pline_arcs_to_approx_lines_body, ffi_catch_unwind, h0]
    · cases hpl : s.plines p with
      | none =>
        simp [cavc_pline_arcs_to_approx_lines,
          cavc_pline_arcs_to_approx_lines_body, ffi_catch_unwind, h0, hpl]
      | some pl =>
        cases harc : C.arcs_to_approx_lines pl e with
        | error u =>
          simp [cavc_pline_arcs_to_approx_lines,
            cavc_pline_arcs_to_approx_lines_body, ffi_catch_unwind, h0, hpl,
            harc]
        | ok ro =>
          cases ro with
          | none =>
            simp [cavc_pline_arcs_to_approx_lines,
              cavc_pline_arcs_to_approx_lines_body, ffi_catch_unwind, h0, hpl,
              harc, allocPline]
          | some pl2 =>
            simp [cavc_pline_arcs_to_approx_lines,
              cavc_pline_arcs_to_approx_lines_body, ffi_catch_unwind, h0, hpl,
              harc, allocPline]
  · intro C p1 p2 e
    by_cases h0 : p1 = 0 ∨ p2 = 0
    · simp [cavc_pline_find_intersects, cavc_pline_find_intersects_body,
        ffi_catch_unwind, h0]
    · cases hpl1 : s.plines p1 with
      | none =>
        simp [cavc_pline_find_intersects, cavc_pline_find_intersects_body,
          ffi_catch_unwind, h0, hpl1]
      | some q1 =>
        cases hpl2 : s.plines p2 with
        | none =>
          simp [cavc_pline_find_intersects, cavc_pline_find_intersects_body,
            ffi_catch_unwind, h0, hpl1, hpl2]
        | some q2 =>
          cases hfi : C.find_intersects_opt q1 q2 e with
          | error u =>
            simp [cavc_pline_find_intersects, cavc_pline_find_intersects_body,
              ffi_catch_unwind, h0, hpl1, hpl2, hfi]
          | ok col =>
            simp [cavc_pline_find_intersects, cavc_pline_find_intersects_body,
              ffi_catch_unwind, h0, hpl1, hpl2, hfi, allocResult]
  · intro C p1 p2 e q v hv
    have hqa : q ≠ s.alloc := by
      intro hx
      rw [hx, hwf.2.2.2.2 s.alloc (Nat.le_refl _)] at hv
      exact Option.noConfusion hv
    by_cases h0 : p1 = 0 ∨ p2 = 0
    · simp [cavc_pline_find_intersects, cavc_pline_find_intersects_body,
        ffi_catch_unwind, h0, hv]
    · cases hpl1 : s.plines p1 with
      | none =>
        simp [cavc_pline_find_intersects, cavc_pline_find_intersects_body,
          ffi_catch_unwind, h0, hpl1, hv]
      | some q1 =>
        cases hpl2 : s.plines p2 with
        | none =>
          simp [cavc_pline_find_intersects, cavc_pline_find_intersects_body,
            ffi_catch_unwind, h0, hpl1, hpl2, hv]
        | some q2 =>
          cases hfi : C.find_intersects_opt q1 q2 e with
          | error u =>
            simp [cavc_pline_find_intersects, cavc_pline_find_intersects_body,
              ffi_catch_unwind, h0, hpl1, hpl2, hfi, hv]
          | ok col =>
            simp [cavc_pline_find_intersects, cavc_pline_find_intersects_body,
              ffi_catch_unwind, h0, hpl1, hpl2, hfi, allocResult, hqa, hv]
  · intro r
    by_cases h0 : r = 0
    · simp [cavc_intersects_result_get_basic_count,
        cavc_intersects_result_get_basic_count_body, ffi_catch_unwind, h0]
    · cases hres : s.results r with
      | none =>
        simp [cavc_intersects_result_get_basic_count,
          cavc_intersects_result_get_basic_count_body, ffi_catch_unwind, h0,
          hres]
      | some col =>
        simp [cavc_intersects_result_get_basic_count,
          cavc_intersects_result_get_basic_count_body, ffi_catch_unwind, h0,
          hres]
  · intro r i
    by_cases h0 : r = 0
    · simp [cavc_intersects_result_get_basic,
        cavc_intersects_result_get_basic_body, ffi_catch_unwind, h0]
    · cases hres : s.results r with
      | none =>
        simp [cavc_intersects_result_get_basic,
          cavc_intersects_result_get_basic_body, ffi_catch_unwind, h0, hres]
      | some col =>
        by_cases hlt : i < col.basic.length
        · simp [cavc_intersects_result_get_basic,
            cavc_intersects_result_get_basic_body, ffi_catch_unwind, h0, hres,
            hlt]
        · simp [cavc_intersects_result_get_basic,
            cavc_intersects_result_get_basic_body, ffi_catch_unwind, h0, hres,
            hlt]
  · intro r
    by_cases h0 : r = 0
    · simp [cavc_intersects_result_get_overlapping_count,
        cavc_intersects_result_get_overlapping_count_body, ffi_catch_unwind,
        h0]
    · cases hres : s.results r with
      | none =>
        simp [cavc_intersects_result_get_overlapping_count,
          cavc_intersects_result_get_overlapping_count_body, ffi_catch_unwind,
          h0, hres]
      | some col =>
        simp [cavc_intersects_result_get_overlapping_count,
          cavc_intersects_result_get_overlapping_count_body, ffi_catch_unwind,
          h0, hres]
  · intro r i
    by_cases h0 : r = 0
    · simp [cavc_intersects_result_get_overlapping,
        cavc_intersects_result_get_overlapping_body, ffi_catch_unwind, h0]
    · cases hres : s.results r with
      | none =>
        simp [cavc_intersects_result_get_overlapping,
          cavc_intersects_result_get_overlapping_body, ffi_catch_unwind, h0,
          hres]
      | some col =>
        by_cases hlt : i < col.overlapping.length
        · simp [cavc_intersects_result_get_overlapping,
            cavc_intersects_result_get_overlapping_body, ffi_catch_unwind, h0,
            hres, hlt]
        · simp [cavc_intersects_result_get_overlapping,
            cavc_intersects_result_get_overlapping_body, ffi_catch_unwind, h0,
            hres, hlt]

/-- C10 witness: on the well-formed heap S1, a faulting closest-point call
on handle 1 still leaves the heap exactly as it was. -/
theorem C10_read_only_frame_witness :
    State.WF S1 ∧ (cavc_pline_closest_point panicCollab S1 1 3 4 1).1 = S1 :=
  ⟨S1_WF, (C10_read_only_frame S1 S1_WF).2.1 panicCollab 1 3 4 1⟩
